import Mathlib

/-!
# Gift-management system: inventory and request-approval engine

A shallow embedding of the core engine of the gift-management server
(`server.js` and its variant): the dataset record, the inventory mutations
(send, manual adjust, record removal), the request lifecycle
(submit, approve, reject) and the cascade deletions (user, gift).
JavaScript numbers holding quantities are modelled as `Int`; nullable id
fields are `Option Nat`; timestamps are abstract `Nat` ticks supplied by the
caller.  Every route handler returns the (possibly unchanged) dataset
together with an `Except` mirroring the success / error JSON response.
-/

namespace GiftSystem

/-- A user row: only the fields the engine reads (`id`, `status`). -/
structure User where
  id : Nat
  status : String
  deriving Repr, DecidableEq

/-- A gift row: only the fields the engine reads. -/
structure Gift where
  id : Nat
  giftCode : String
  status : String
  deriving Repr, DecidableEq

/-- An inventory record, keyed by `(userId, giftId)`.  `userId` is nullable
because the approve-transfer branch copies `request.targetUserId` (which can
be null) straight into a new record. -/
structure InventoryRecord where
  id : Nat
  userId : Option Nat
  giftId : Nat
  quantity : Int
  lastUpdated : Nat
  deriving Repr, DecidableEq

/-- The `transactionType` strings used by the server. -/
inductive TxType where
  | send
  | adjust
  | receive
  | transfer
  | delete
  deriving Repr, DecidableEq

/-- A ledger entry (`giftTransactions` row). -/
structure Transaction where
  id : Nat
  userId : Option Nat
  giftId : Nat
  transactionType : TxType
  quantity : Int
  referenceUserId : Option Nat
  reason : String
  createdBy : Nat
  createdAt : Nat
  deriving Repr, DecidableEq

/-- The `requestType` strings: `increase`, `transfer`, or anything else
(the approve handler has no branch for other values but still marks the
request approved). -/
inductive ReqType where
  | increase
  | transfer
  | other
  deriving Repr, DecidableEq

/-- The request `status` strings. -/
inductive ReqStatus where
  | pending
  | approved
  | rejected
  deriving Repr, DecidableEq

/-- A request (`giftRequests` row). -/
structure Request where
  id : Nat
  requesterId : Nat
  giftId : Nat
  requestType : ReqType
  requestedQuantity : Int
  approvedQuantity : Option Int
  targetUserId : Option Nat
  purpose : String
  status : ReqStatus
  approverId : Option Nat
  rejectionReason : Option String
  createdAt : Nat
  approvedAt : Option Nat
  deriving Repr, DecidableEq

/-- The persisted dataset (`giftSystemData.json`), with the id counters the
engine consumes. -/
structure Dataset where
  users : List User
  gifts : List Gift
  giftInventory : List InventoryRecord
  giftRequests : List Request
  giftTransactions : List Transaction
  nextInventoryId : Nat
  nextRequestId : Nat
  nextTransactionId : Nat
  deriving Repr, DecidableEq

/-- The error responses the modelled handlers can produce. -/
inductive ApiError where
  /-- 400 `庫存不足` from the send handler. -/
  | insufficientStock
  /-- 400 `庫存不足，無法轉移` from the submit handler. -/
  | insufficientToTransfer
  /-- 400 `目標使用者不存在` from the submit handler. -/
  | targetUserMissing
  /-- 404 `申請不存在或已處理` from the approve / reject handlers. -/
  | requestMissingOrProcessed
  /-- 404 `找不到贈品` from the delete-gift handler. -/
  | giftMissing
  /-- 404 `找不到庫存記錄` from the delete-inventory handler. -/
  | inventoryMissing
  /-- 404 `使用者不存在` from the delete-user handler. -/
  | userMissing
  /-- 400 `無法刪除自己的帳號` from the delete-user handler. -/
  | cannotDeleteSelf
  deriving Repr, DecidableEq

deriving instance DecidableEq for Except

/-- `findIndex` + in-place mutation of the found element: rewrite the first
element satisfying `p` with `f`. -/
def updateFirst (p : α → Bool) (f : α → α) : List α → List α
  | [] => []
  | x :: xs => if p x then f x :: xs else x :: updateFirst p f xs

/-- JavaScript truthiness of a nullable id (`null`, `undefined` and `0` are
falsy). -/
def truthyNat : Option Nat → Bool
  | some n => n != 0
  | none => false

/-- JavaScript `supplied || fallback` on a nullable number: `null`,
`undefined` and `0` select the fallback, every other value (negative
included) is kept. -/
def jsOr (supplied : Option Int) (fallback : Int) : Int :=
  match supplied with
  | some q => if q == 0 then fallback else q
  | none => fallback

/-- Predicate matching the inventory record of holder `uid` and gift `gid`
(`inv.userId === uid && inv.giftId === giftId`). -/
def invMatch (uid : Option Nat) (gid : Nat) (inv : InventoryRecord) : Bool :=
  inv.userId == uid && inv.giftId == gid

/-- The current quantity of holder `uid` for gift `gid` (`0` when no record
exists). -/
def invQuantity (d : Dataset) (uid gid : Nat) : Int :=
  match d.giftInventory.find? (invMatch (some uid) gid) with
  | some inv => inv.quantity
  | none => 0

/-- Whether an inventory record exists for holder `uid` and gift `gid`. -/
def hasInvRecord (d : Dataset) (uid gid : Nat) : Bool :=
  (d.giftInventory.find? (invMatch (some uid) gid)).isSome

/-- The sum of `quantity` over the ledger entries of the pair
`(uid, gid)`. -/
def ledgerSum (d : Dataset) (uid gid : Nat) : Int :=
  ((d.giftTransactions.filter
      (fun t => t.userId == some uid && t.giftId == gid)).map
    Transaction.quantity).sum

/-- The `send` ledger entry appended by the send handler. -/
def sendTx (txId uid gid : Nat) (quantity : Int) (reason : String) (now : Nat) :
    Transaction :=
  { id := txId
    userId := some uid
    giftId := gid
    transactionType := TxType.send
    quantity := -quantity
    referenceUserId := none
    reason := if reason == "" then "當日送出" else reason
    createdBy := uid
    createdAt := now }

/-- `POST /api/inventory/send`: debit the caller's own stock.  Fails when no
record exists or the stored quantity is below the requested one; otherwise
decrements the record and appends one `send` ledger entry. -/
def sendGift (uid gid : Nat) (quantity : Int) (reason : String) (now : Nat)
    (d : Dataset) : Dataset × Except ApiError Unit :=
  match d.giftInventory.find? (invMatch (some uid) gid) with
  | none => (d, Except.error ApiError.insufficientStock)
  | some inv =>
    if inv.quantity < quantity then
      (d, Except.error ApiError.insufficientStock)
    else
      ({ d with
          giftInventory := updateFirst (invMatch (some uid) gid)
            (fun i => { i with quantity := i.quantity - quantity, lastUpdated := now })
            d.giftInventory
          giftTransactions := d.giftTransactions ++
            [sendTx d.nextTransactionId uid gid quantity reason now]
          nextTransactionId := d.nextTransactionId + 1 },
       Except.ok ())

/-- The `adjust` ledger entry appended by the manual-adjust handler. -/
def adjustTx (txId actorId uid gid : Nat) (delta : Int) (reason : String)
    (now : Nat) : Transaction :=
  { id := txId
    userId := some uid
    giftId := gid
    transactionType := TxType.adjust
    quantity := delta
    referenceUserId := none
    reason := reason
    createdBy := actorId
    createdAt := now }

/-- `PUT /api/inventory/:userId/:giftId`: set the absolute quantity (no
validation), creating the record when missing, and append one `adjust`
ledger entry holding the signed delta. -/
def manualAdjust (actorId uid gid : Nat) (quantity : Int) (reason : String)
    (now : Nat) (d : Dataset) : Dataset × Except ApiError Unit :=
  let found := hasInvRecord d uid gid
  let oldQuantity := invQuantity d uid gid
  ({ d with
      giftInventory :=
        if found then
          updateFirst (invMatch (some uid) gid)
            (fun i => { i with quantity := quantity, lastUpdated := now })
            d.giftInventory
        else
          d.giftInventory ++
            [{ id := d.nextInventoryId
               userId := some uid
               giftId := gid
               quantity := quantity
               lastUpdated := now }]
      nextInventoryId := if found then d.nextInventoryId else d.nextInventoryId + 1
      giftTransactions := d.giftTransactions ++
        [adjustTx d.nextTransactionId actorId uid gid (quantity - oldQuantity)
          reason now]
      nextTransactionId := d.nextTransactionId + 1 },
   Except.ok ())

/-- The `delete` cleanup ledger entry appended by the delete-inventory
handler. -/
def cleanupTx (txId actorId uid gid : Nat) (priorQuantity : Int) (now : Nat) :
    Transaction :=
  { id := txId
    userId := some uid
    giftId := gid
    transactionType := TxType.delete
    quantity := -priorQuantity
    referenceUserId := none
    reason := "贈品刪除時自動清理庫存記錄"
    createdBy := actorId
    createdAt := now }

/-- `DELETE /api/inventory/:userId/:giftId`: remove the record and append a
`delete` cleanup entry negating its prior quantity. -/
def removeInventoryRecord (actorId uid gid : Nat) (now : Nat) (d : Dataset) :
    Dataset × Except ApiError InventoryRecord :=
  match d.giftInventory.find? (invMatch (some uid) gid) with
  | none => (d, Except.error ApiError.inventoryMissing)
  | some inv =>
    ({ d with
        giftTransactions := d.giftTransactions ++
          [cleanupTx d.nextTransactionId actorId uid gid inv.quantity now]
        nextTransactionId := d.nextTransactionId + 1
        giftInventory := d.giftInventory.eraseP (invMatch (some uid) gid) },
     Except.ok inv)

/-- The fresh request built by the submit handler (`targetUserId || null`
normalises a falsy target to null). -/
def mkRequest (reqId uid gid : Nat) (rtype : ReqType) (requestedQuantity : Int)
    (targetUserId : Option Nat) (purpose : String) (now : Nat) : Request :=
  { id := reqId
    requesterId := uid
    giftId := gid
    requestType := rtype
    requestedQuantity := requestedQuantity
    approvedQuantity := none
    targetUserId := if truthyNat targetUserId then targetUserId else none
    purpose := purpose
    status := ReqStatus.pending
    approverId := none
    rejectionReason := none
    createdAt := now
    approvedAt := none }

/-- The unconditional tail of the submit handler: push the new pending
request and consume a request id. -/
def submitCreate (uid gid : Nat) (rtype : ReqType) (requestedQuantity : Int)
    (targetUserId : Option Nat) (purpose : String) (now : Nat) (d : Dataset) :
    Dataset × Except ApiError Request :=
  let r := mkRequest d.nextRequestId uid gid rtype requestedQuantity
    targetUserId purpose now
  ({ d with
      giftRequests := d.giftRequests ++ [r]
      nextRequestId := d.nextRequestId + 1 },
   Except.ok r)

/-- `POST /api/requests`: validation runs only when the type is `transfer`
AND a truthy target id was supplied; it checks that the target is an active
user and that the requester's stock covers the requested quantity.  In every
other case the pending request is created unconditionally. -/
def submitRequest (uid gid : Nat) (rtype : ReqType) (requestedQuantity : Int)
    (targetUserId : Option Nat) (purpose : String) (now : Nat) (d : Dataset) :
    Dataset × Except ApiError Request :=
  if rtype == ReqType.transfer && truthyNat targetUserId then
    match d.users.find? (fun u => some u.id == targetUserId && u.status == "active") with
    | none => (d, Except.error ApiError.targetUserMissing)
    | some _ =>
      match d.giftInventory.find? (invMatch (some uid) gid) with
      | none => (d, Except.error ApiError.insufficientToTransfer)
      | some inv =>
        if inv.quantity < requestedQuantity then
          (d, Except.error ApiError.insufficientToTransfer)
        else
          submitCreate uid gid rtype requestedQuantity targetUserId purpose now d
  else
    submitCreate uid gid rtype requestedQuantity targetUserId purpose now d

/-- The `receive` ledger entry appended by the approve-increase branch. -/
def increaseTx (txId : Nat) (request : Request) (finalQuantity : Int)
    (approverId now : Nat) : Transaction :=
  { id := txId
    userId := some request.requesterId
    giftId := request.giftId
    transactionType := TxType.receive
    quantity := finalQuantity
    referenceUserId := none
    reason := "增發申請批准: " ++ request.purpose
    createdBy := approverId
    createdAt := now }

/-- The outgoing `transfer` ledger entry appended by the approve-transfer
branch. -/
def transferOutTx (txId : Nat) (request : Request) (finalQuantity : Int)
    (approverId now : Nat) : Transaction :=
  { id := txId
    userId := some request.requesterId
    giftId := request.giftId
    transactionType := TxType.transfer
    quantity := -finalQuantity
    referenceUserId := request.targetUserId
    reason := "轉移申請批准: " ++ request.purpose
    createdBy := approverId
    createdAt := now }

/-- The incoming `receive` ledger entry appended by the approve-transfer
branch. -/
def transferInTx (txId : Nat) (request : Request) (finalQuantity : Int)
    (approverId now : Nat) : Transaction :=
  { id := txId
    userId := request.targetUserId
    giftId := request.giftId
    transactionType := TxType.receive
    quantity := finalQuantity
    referenceUserId := some request.requesterId
    reason := "接收轉移: " ++ request.purpose
    createdBy := approverId
    createdAt := now }

/-- `PUT /api/requests/:id/approve`: fails (without touching the dataset)
when the request is missing or not pending; otherwise marks it approved with
`finalQuantity = approvedQuantity || requestedQuantity` and applies the
inventory effect of its type.  The transfer branch debits the requester only
when their record exists, but credits the target and writes both ledger
entries unconditionally. -/
def approveRequest (approverId reqId : Nat) (approvedQuantity : Option Int)
    (now : Nat) (d : Dataset) : Dataset × Except ApiError Request :=
  match d.giftRequests.find? (fun r => r.id == reqId) with
  | none => (d, Except.error ApiError.requestMissingOrProcessed)
  | some request =>
    if request.status != ReqStatus.pending then
      (d, Except.error ApiError.requestMissingOrProcessed)
    else
      let finalQuantity := jsOr approvedQuantity request.requestedQuantity
      let request' := { request with
        status := ReqStatus.approved
        approverId := some approverId
        approvedQuantity := some finalQuantity
        approvedAt := some now }
      let requests' := updateFirst (fun r => r.id == reqId) (fun _ => request')
        d.giftRequests
      match request.requestType with
      | ReqType.increase =>
        let found := hasInvRecord d request.requesterId request.giftId
        ({ d with
            giftRequests := requests'
            giftInventory :=
              if found then
                updateFirst (invMatch (some request.requesterId) request.giftId)
                  (fun i =>
                    { i with quantity := i.quantity + finalQuantity, lastUpdated := now })
                  d.giftInventory
              else
                d.giftInventory ++
                  [{ id := d.nextInventoryId
                     userId := some request.requesterId
                     giftId := request.giftId
                     quantity := finalQuantity
                     lastUpdated := now }]
            nextInventoryId :=
              if found then d.nextInventoryId else d.nextInventoryId + 1
            giftTransactions := d.giftTransactions ++
              [increaseTx d.nextTransactionId request finalQuantity approverId now]
            nextTransactionId := d.nextTransactionId + 1 },
         Except.ok request')
      | ReqType.transfer =>
        let pFrom := invMatch (some request.requesterId) request.giftId
        let inv1 :=
          if (d.giftInventory.find? pFrom).isSome then
            updateFirst pFrom
              (fun i =>
                { i with quantity := i.quantity - finalQuantity, lastUpdated := now })
              d.giftInventory
          else
            d.giftInventory
        let pTo := invMatch request.targetUserId request.giftId
        let toFound := (inv1.find? pTo).isSome
        ({ d with
            giftRequests := requests'
            giftInventory :=
              if toFound then
                updateFirst pTo
                  (fun i =>
                    { i with quantity := i.quantity + finalQuantity, lastUpdated := now })
                  inv1
              else
                inv1 ++
                  [{ id := d.nextInventoryId
                     userId := request.targetUserId
                     giftId := request.giftId
                     quantity := finalQuantity
                     lastUpdated := now }]
            nextInventoryId :=
              if toFound then d.nextInventoryId else d.nextInventoryId + 1
            giftTransactions := d.giftTransactions ++
              [transferOutTx d.nextTransactionId request finalQuantity approverId now,
               transferInTx (d.nextTransactionId + 1) request finalQuantity approverId now]
            nextTransactionId := d.nextTransactionId + 2 },
         Except.ok request')
      | ReqType.other =>
        ({ d with giftRequests := requests' }, Except.ok request')

/-- `PUT /api/requests/:id/reject`: fails (without touching the dataset)
when the request is missing or not pending; otherwise marks it rejected with
a reason and a decision timestamp.  No inventory effect. -/
def rejectRequest (approverId reqId : Nat) (reason : String) (now : Nat)
    (d : Dataset) : Dataset × Except ApiError Request :=
  match d.giftRequests.find? (fun r => r.id == reqId) with
  | none => (d, Except.error ApiError.requestMissingOrProcessed)
  | some request =>
    if request.status != ReqStatus.pending then
      (d, Except.error ApiError.requestMissingOrProcessed)
    else
      let request' := { request with
        status := ReqStatus.rejected
        approverId := some approverId
        rejectionReason := some reason
        approvedAt := some now }
      ({ d with
          giftRequests := updateFirst (fun r => r.id == reqId) (fun _ => request')
            d.giftRequests },
       Except.ok request')

/-- `DELETE /api/users/:id`: refuses self-deletion and unknown users, then
removes the user together with their inventory records, their requests and
their ledger entries. -/
def deleteUser (actorId uid : Nat) (d : Dataset) :
    Dataset × Except ApiError Unit :=
  if uid == actorId then (d, Except.error ApiError.cannotDeleteSelf)
  else
    match d.users.find? (fun u => u.id == uid) with
    | none => (d, Except.error ApiError.userMissing)
    | some _ =>
      ({ d with
          users := d.users.eraseP (fun u => u.id == uid)
          giftInventory := d.giftInventory.filter (fun inv => inv.userId != some uid)
          giftRequests := d.giftRequests.filter (fun r => r.requesterId != uid)
          giftTransactions := d.giftTransactions.filter (fun t => t.userId != some uid) },
       Except.ok ())

/-- The summary returned by the delete-gift handler. -/
structure DeleteGiftResult where
  deletedGift : Gift
  removedInventoryCount : Nat
  removedRequestsCount : Nat
  deriving Repr, DecidableEq

/-- `DELETE /api/gifts/:id`: removes the gift, every inventory record and
every request referencing it, and reports the removed counts (initial length
minus remaining length).  The ledger is left untouched. -/
def deleteGift (gid : Nat) (d : Dataset) :
    Dataset × Except ApiError DeleteGiftResult :=
  match d.gifts.find? (fun g => g.id == gid) with
  | none => (d, Except.error ApiError.giftMissing)
  | some g =>
    let inventory' := d.giftInventory.filter (fun inv => inv.giftId != gid)
    let requests' := d.giftRequests.filter (fun r => r.giftId != gid)
    ({ d with
        gifts := d.gifts.eraseP (fun x => x.id == gid)
        giftInventory := inventory'
        giftRequests := requests' },
     Except.ok
       { deletedGift := g
         removedInventoryCount := d.giftInventory.length - inventory'.length
         removedRequestsCount := d.giftRequests.length - requests'.length })

/-- One mutating operation of the engine, with the arguments the handlers
read from the authenticated caller and the request body. -/
inductive Op where
  | send (uid gid : Nat) (quantity : Int) (reason : String) (now : Nat)
  | adjust (actorId uid gid : Nat) (quantity : Int) (reason : String) (now : Nat)
  | removeInv (actorId uid gid : Nat) (now : Nat)
  | submit (uid gid : Nat) (rtype : ReqType) (requestedQuantity : Int)
      (targetUserId : Option Nat) (purpose : String) (now : Nat)
  | approve (approverId reqId : Nat) (approvedQuantity : Option Int) (now : Nat)
  | reject (approverId reqId : Nat) (reason : String) (now : Nat)
  | deleteUser (actorId uid : Nat)
  | deleteGift (gid : Nat)
  deriving Repr, DecidableEq

/-- Whether an operation is a user deletion. -/
def Op.isDeleteUser : Op → Bool
  | Op.deleteUser _ _ => true
  | _ => false

/-- Apply one operation to the dataset, keeping the (possibly unchanged)
dataset and discarding the response body. -/
def applyOp (op : Op) (d : Dataset) : Dataset :=
  match op with
  | Op.send uid gid q reason now => (sendGift uid gid q reason now d).1
  | Op.adjust actorId uid gid q reason now =>
      (manualAdjust actorId uid gid q reason now d).1
  | Op.removeInv actorId uid gid now =>
      (removeInventoryRecord actorId uid gid now d).1
  | Op.submit uid gid rtype rq target purpose now =>
      (submitRequest uid gid rtype rq target purpose now d).1
  | Op.approve approverId reqId aq now =>
      (approveRequest approverId reqId aq now d).1
  | Op.reject approverId reqId reason now =>
      (rejectRequest approverId reqId reason now d).1
  | Op.deleteUser actorId uid => (GiftSystem.deleteUser actorId uid d).1
  | Op.deleteGift gid => (GiftSystem.deleteGift gid d).1

end GiftSystem

namespace GiftSystem

/-! ## Concrete datasets used as failing inputs, counterexamples and
witnesses -/

/-- Three active seed users (ids 1, 2 and the manager 3). -/
def seedUsers : List User :=
  [{ id := 1, status := "active" }, { id := 2, status := "active" },
   { id := 3, status := "active" }]

/-- A single active gift. -/
def gift1 : Gift := { id := 1, giftCode := "G001", status := "active" }

/-- A pending transfer request: holder 1 asks to move five units of gift 1
to holder 2. -/
def transferReq5 : Request :=
  { id := 1
    requesterId := 1
    giftId := 1
    requestType := ReqType.transfer
    requestedQuantity := 5
    approvedQuantity := none
    targetUserId := some 2
    purpose := "p"
    status := ReqStatus.pending
    approverId := none
    rejectionReason := none
    createdAt := 0
    approvedAt := none }

/-- Dataset for C1: holder 1 owns one unit of gift 1 (matching the single
ledger entry of the pair) and the transfer request for five units is
pending. -/
def c1Start : Dataset :=
  { users := seedUsers
    gifts := [gift1]
    giftInventory :=
      [{ id := 1, userId := some 1, giftId := 1, quantity := 1, lastUpdated := 0 }]
    giftRequests := [transferReq5]
    giftTransactions :=
      [{ id := 1
         userId := some 1
         giftId := 1
         transactionType := TxType.receive
         quantity := 1
         referenceUserId := none
         reason := "seed"
         createdBy := 3
         createdAt := 0 }]
    nextInventoryId := 2
    nextRequestId := 2
    nextTransactionId := 2 }

/-- Dataset for C3: nobody owns anything, yet the transfer request for five
units is pending. -/
def c3Start : Dataset :=
  { users := seedUsers
    gifts := [gift1]
    giftInventory := []
    giftRequests := [transferReq5]
    giftTransactions := []
    nextInventoryId := 1
    nextRequestId := 2
    nextTransactionId := 1 }

/-- The dataset after the manager approves the transfer request of
`c3Start`. -/
def c3After : Dataset := applyOp (Op.approve 3 1 none 7) c3Start

/-- Dataset for C4: holder 1 owns five units of gift 1 and no request is
pending. -/
def c4Stock : Dataset :=
  { users := seedUsers
    gifts := [gift1]
    giftInventory :=
      [{ id := 1, userId := some 1, giftId := 1, quantity := 5, lastUpdated := 0 }]
    giftRequests := []
    giftTransactions := []
    nextInventoryId := 2
    nextRequestId := 1
    nextTransactionId := 1 }

/-- A pending increase request: holder 1 asks for five more units of
gift 1. -/
def increaseReq5 : Request :=
  { id := 1
    requesterId := 1
    giftId := 1
    requestType := ReqType.increase
    requestedQuantity := 5
    approvedQuantity := none
    targetUserId := none
    purpose := "p"
    status := ReqStatus.pending
    approverId := none
    rejectionReason := none
    createdAt := 0
    approvedAt := none }

/-- Dataset for C5 and C7: holder 1 owns five units of gift 1 and the
increase request for five units is pending. -/
def c5Pending : Dataset :=
  { users := seedUsers
    gifts := [gift1]
    giftInventory :=
      [{ id := 1, userId := some 1, giftId := 1, quantity := 5, lastUpdated := 0 }]
    giftRequests := [increaseReq5]
    giftTransactions := []
    nextInventoryId := 2
    nextRequestId := 2
    nextTransactionId := 1 }

/-- Dataset for C6 and C10: the seed users and gift with no inventory, no
request and no ledger entry. -/
def c6Start : Dataset :=
  { users := seedUsers
    gifts := [gift1]
    giftInventory := []
    giftRequests := []
    giftTransactions := []
    nextInventoryId := 1
    nextRequestId := 1
    nextTransactionId := 1 }

/-! ## C1, C3: failing inputs for the balance invariant and transfer
atomicity -/

/-- C1: the claimed invariant (quantity = sum of the pair's ledger entries,
never negative) fails on the code.  The dataset `c1Start` satisfies it, and
the single operation `approve` on the pending transfer of five units drives
holder 1's quantity to `-4`: the code debits without re-checking the
balance. -/
theorem c1_transfer_drives_balance_negative :
    (invQuantity c1Start 1 1 = ledgerSum c1Start 1 1 ∧
      invQuantity c1Start 2 1 = ledgerSum c1Start 2 1 ∧
      0 ≤ invQuantity c1Start 1 1) ∧
    invQuantity (applyOp (Op.approve 3 1 none 7) c1Start) 1 1 = -4 := by decide

/-- C3: transfer is not atomic.  Approving the pending transfer of
`c3Start`, where the requester has no inventory record, silently skips the
debit yet still credits the target with five units, marks the request
approved and writes both ledger entries: the credit is applied alone. -/
theorem c3_skipped_debit_leaves_orphaned_credit :
    hasInvRecord c3Start 1 1 = false ∧
    c3Start.giftTransactions = [] ∧
    invQuantity c3After 1 1 = 0 ∧
    invQuantity c3After 2 1 = 5 ∧
    c3After.giftTransactions.length = 2 ∧
    c3After.giftRequests.map Request.status = [ReqStatus.approved] := by decide

/-! ## C4, C5, C6, C7, C8: counterexamples -/

/-- C4 counterexample: a send of amount `0` is not rejected — the recorded
ledger entry has signedQuantity `0`, which is not negative, refuting the
claim for non-positive amounts. -/
theorem c4_zero_amount_send_not_rejected :
    (sendGift 1 1 0 "" 3 c4Stock).2 = Except.ok () ∧
    (sendGift 1 1 0 "" 3 c4Stock).1.giftTransactions.map Transaction.quantity
      = [0] := by decide

/-- C5 counterexample: a credit of `-3` (approval of an increase request
with supplied approvedQuantity `-3`) does not fail with `InvalidAmount`: it
succeeds and lowers the quantity from 5 to 2. -/
theorem c5_negative_credit_not_rejected :
    (approveRequest 3 1 (some (-3)) 9 c5Pending).2.isOk = true ∧
    invQuantity (approveRequest 3 1 (some (-3)) 9 c5Pending).1 1 1 = 2 := by decide

/-- C6 counterexample: a submission with `requestedQuantity = -5` (type
`increase`) is accepted and creates a pending request, refuting the claim
that the requestedQuantity must be positive or the submission fails. -/
theorem c6_nonpositive_quantity_accepted :
    (submitRequest 1 1 ReqType.increase (-5) none "p" 3 c6Start).2.isOk = true ∧
    (submitRequest 1 1 ReqType.increase (-5) none "p" 3 c6Start).1.giftRequests.map
        Request.requestedQuantity = [-5] ∧
    (submitRequest 1 1 ReqType.increase (-5) none "p" 3 c6Start).1.giftRequests.map
        Request.status = [ReqStatus.pending] := by decide

/-- C7 counterexample: approving with a supplied negative approvedQuantity
`-2` records `-2`, not the requestedQuantity `5`: a negative value is truthy
in `approvedQuantity || requestedQuantity` and is applied as-is. -/
theorem c7_negative_approved_quantity_used :
    (approveRequest 3 1 (some (-2)) 9 c5Pending).1.giftRequests.map
      Request.approvedQuantity = [some (-2)] := by decide

/-- The ledger entry of holder 1 used by the C8 counterexample. -/
def c8Entry : Transaction :=
  { id := 1
    userId := some 1
    giftId := 1
    transactionType := TxType.send
    quantity := -1
    referenceUserId := none
    reason := "seed"
    createdBy := 1
    createdAt := 0 }

/-- Dataset for C8: one ledger entry belonging to holder 1. -/
def c8Start : Dataset :=
  { users := seedUsers
    gifts := [gift1]
    giftInventory := []
    giftRequests := []
    giftTransactions := [c8Entry]
    nextInventoryId := 1
    nextRequestId := 1
    nextTransactionId := 2 }

/-- C8 counterexample: deleting holder 1 removes their ledger entry — the
entry present before the operation is gone afterwards (and no cleanup entry
replaces it), refuting the claim that entries survive every operation. -/
theorem c8_delete_user_erases_ledger :
    c8Entry ∈ c8Start.giftTransactions ∧
    (deleteUser 3 1 c8Start).2 = Except.ok () ∧
    c8Entry ∉ (deleteUser 3 1 c8Start).1.giftTransactions ∧
    (deleteUser 3 1 c8Start).1.giftTransactions = [] := by decide

end GiftSystem

namespace GiftSystem

/-! ## Helper lemmas about `updateFirst`, `find?` and `filter` -/

/-- `updateFirst` is the identity when nothing matches. -/
theorem updateFirst_eq_of_find?_none {p : α → Bool} (f : α → α) {l : List α}
    (h : l.find? p = none) : updateFirst p f l = l := by
  induction l with
  | nil => rfl
  | cons x xs ih =>
    by_cases hx : p x = true
    · rw [List.find?_cons_of_pos _ hx] at h
      cases h
    · rw [List.find?_cons_of_neg _ hx] at h
      simp [updateFirst, hx, ih h]

/-- Looking up after an in-place rewrite of the first match: when `f`
preserves the predicate, the lookup returns the rewritten element. -/
theorem find?_updateFirst {p : α → Bool} {f : α → α} (l : List α)
    (hf : ∀ a, p a = true → p (f a) = true) :
    (updateFirst p f l).find? p = (l.find? p).map f := by
  induction l with
  | nil => rfl
  | cons x xs ih =>
    by_cases hx : p x = true
    · simp [updateFirst, hx, List.find?_cons_of_pos _ (hf x hx),
        List.find?_cons_of_pos _ hx]
    · simp [updateFirst, hx, List.find?_cons_of_neg _ hx, ih]

/-- Every element of `updateFirst p f l` is an element of `l` or the image
under `f` of a matching element of `l`. -/
theorem mem_updateFirst {p : α → Bool} {f : α → α} {l : List α} {a : α}
    (h : a ∈ updateFirst p f l) :
    a ∈ l ∨ ∃ b, b ∈ l ∧ p b = true ∧ a = f b := by
  induction l with
  | nil => cases h
  | cons x xs ih =>
    by_cases hx : p x = true
    · rw [updateFirst, if_pos hx] at h
      rcases List.mem_cons.mp h with h | h
      · exact Or.inr ⟨x, List.mem_cons_self x xs, hx, h⟩
      · exact Or.inl (List.mem_cons_of_mem _ h)
    · rw [updateFirst, if_neg hx] at h
      rcases List.mem_cons.mp h with h | h
      · exact Or.inl (h ▸ List.mem_cons_self x xs)
      · rcases ih h with h' | ⟨b, hb, hpb, hab⟩
        · exact Or.inl (List.mem_cons_of_mem _ h')
        · exact Or.inr ⟨b, List.mem_cons_of_mem _ hb, hpb, hab⟩

/-- The rewriting functions used on inventory records touch only `quantity`
and `lastUpdated`, so they preserve the `(userId, giftId)` key. -/
theorem invMatch_update (uid : Option Nat) (gid : Nat) (q' : Int) (now : Nat) :
    ∀ i : InventoryRecord, invMatch uid gid i = true →
      invMatch uid gid { i with quantity := q', lastUpdated := now } = true := by
  intro i hi
  simpa [invMatch] using hi

/-! ## C4 (amended): send with a positive amount -/

/-- C4 (amended to positive amounts): for every positive requested amount,
`send` fails with the insufficient-stock error and leaves the dataset
untouched whenever the holder's current quantity (0 when no record exists)
is below the amount; otherwise it succeeds, decreases the quantity by
exactly the amount and appends exactly one `send` ledger entry with
negative signedQuantity. -/
theorem c4_send_debit_semantics (d : Dataset) (uid gid : Nat) (q : Int)
    (reason : String) (now : Nat) (hq : 0 < q) :
    (invQuantity d uid gid < q →
      sendGift uid gid q reason now d = (d, Except.error ApiError.insufficientStock)) ∧
    (q ≤ invQuantity d uid gid →
      (sendGift uid gid q reason now d).2 = Except.ok () ∧
      invQuantity (sendGift uid gid q reason now d).1 uid gid
        = invQuantity d uid gid - q ∧
      (sendGift uid gid q reason now d).1.giftTransactions
        = d.giftTransactions ++ [sendTx d.nextTransactionId uid gid q reason now] ∧
      (sendTx d.nextTransactionId uid gid q reason now).quantity < 0) := by
  cases hfind : d.giftInventory.find? (invMatch (some uid) gid) with
  | none =>
    constructor
    · intro _
      simp [sendGift, hfind]
    · intro hle
      simp [invQuantity, hfind] at hle
      omega
  | some inv =>
    have hq0 : invQuantity d uid gid = inv.quantity := by
      rw [invQuantity, hfind]
    constructor
    · intro hlt
      rw [hq0] at hlt
      simp [sendGift, hfind, hlt]
    · intro hle
      rw [hq0] at hle
      have hnotlt : ¬ inv.quantity < q := not_lt.mpr hle
      refine ⟨by simp [sendGift, hfind, hnotlt], ?_, ?_, ?_⟩
      · have hinv : (sendGift uid gid q reason now d).1.giftInventory
            = updateFirst (invMatch (some uid) gid)
                (fun i => { i with quantity := i.quantity - q, lastUpdated := now })
                d.giftInventory := by
          simp [sendGift, hfind, hnotlt]
        have hup : (sendGift uid gid q reason now d).1.giftInventory.find?
            (invMatch (some uid) gid)
            = some { inv with quantity := inv.quantity - q, lastUpdated := now } := by
          rw [hinv, find?_updateFirst d.giftInventory
            (fun i hi => invMatch_update (some uid) gid (i.quantity - q) now i hi),
            hfind]
          rfl
        simp [invQuantity, hup, hfind]
      · simp [sendGift, hfind, hnotlt]
      · simp only [sendTx]
        omega

end GiftSystem

namespace GiftSystem

/-- Lookup after a find-or-create update: when a match exists its first
occurrence is rewritten with `f`, otherwise the matching element `a` is
appended; either way the subsequent lookup sees the outcome. -/
theorem find?_upsert (p : α → Bool) (f : α → α) (a : α) (l : List α)
    (hf : ∀ b, p b = true → p (f b) = true) (ha : p a = true) :
    (if (l.find? p).isSome then updateFirst p f l else l ++ [a]).find? p
      = match l.find? p with
        | some b => some (f b)
        | none => some a := by
  cases h : l.find? p with
  | some b =>
    simp only [h, Option.isSome_some, if_pos]
    rw [find?_updateFirst l hf, h]
    rfl
  | none =>
    simp only [h, Option.isSome_none, Bool.false_eq_true, if_false]
    rw [List.find?_append, h, Option.none_or]
    simp [List.find?_cons_of_pos _ ha]

/-! ## C5 (amended): the credit path applies any finalQuantity, with no
amount validation -/

/-- C5 (amended): no `InvalidAmount` validation exists; approving a pending
increase request applies `finalQuantity = approvedQuantity || requestedQuantity`
whatever its sign — it finds or creates the requester's inventory record,
changes the quantity by exactly finalQuantity, stamps `lastUpdated` with the
decision time and appends exactly one `receive` ledger entry holding
finalQuantity. -/
theorem c5_credit_semantics (d : Dataset) (approverId reqId : Nat)
    (aq : Option Int) (now : Nat) (r : Request)
    (hfind : d.giftRequests.find? (fun x => x.id == reqId) = some r)
    (hst : r.status = ReqStatus.pending)
    (hty : r.requestType = ReqType.increase) :
    (approveRequest approverId reqId aq now d).2.isOk = true ∧
    invQuantity (approveRequest approverId reqId aq now d).1 r.requesterId r.giftId
      = invQuantity d r.requesterId r.giftId + jsOr aq r.requestedQuantity ∧
    (∃ inv, (approveRequest approverId reqId aq now d).1.giftInventory.find?
        (invMatch (some r.requesterId) r.giftId) = some inv ∧
      inv.lastUpdated = now) ∧
    (approveRequest approverId reqId aq now d).1.giftTransactions
      = d.giftTransactions ++
        [increaseTx d.nextTransactionId r (jsOr aq r.requestedQuantity) approverId now] := by
  have hstb : (r.status != ReqStatus.pending) = false := by
    simp [hst]
  have hinven : (approveRequest approverId reqId aq now d).1.giftInventory
      = (if (d.giftInventory.find? (invMatch (some r.requesterId) r.giftId)).isSome
          then updateFirst (invMatch (some r.requesterId) r.giftId)
            (fun i => { i with
              quantity := i.quantity + jsOr aq r.requestedQuantity
              lastUpdated := now })
            d.giftInventory
          else d.giftInventory ++
            [{ id := d.nextInventoryId
               userId := some r.requesterId
               giftId := r.giftId
               quantity := jsOr aq r.requestedQuantity
               lastUpdated := now }]) := by
    simp [approveRequest, hfind, hstb, hty, hasInvRecord]
  have hup := find?_upsert (invMatch (some r.requesterId) r.giftId)
    (fun i => { i with
      quantity := i.quantity + jsOr aq r.requestedQuantity
      lastUpdated := now })
    { id := d.nextInventoryId
      userId := some r.requesterId
      giftId := r.giftId
      quantity := jsOr aq r.requestedQuantity
      lastUpdated := now }
    d.giftInventory
    (fun i hi => invMatch_update (some r.requesterId) r.giftId
      (i.quantity + jsOr aq r.requestedQuantity) now i hi)
    (by simp [invMatch])
  refine ⟨?_, ?_, ?_, ?_⟩
  · simp [approveRequest, hfind, hstb, hty, Except.isOk, Except.toBool]
  · rw [invQuantity, hinven, hup]
    cases h : d.giftInventory.find? (invMatch (some r.requesterId) r.giftId) with
    | some b => simp [invQuantity, h]
    | none => simp [invQuantity, h]
  · rw [hinven, hup]
    cases h : d.giftInventory.find? (invMatch (some r.requesterId) r.giftId) with
    | some b => exact ⟨_, rfl, rfl⟩
    | none => exact ⟨_, rfl, rfl⟩
  · simp [approveRequest, hfind, hstb, hty]

/-- C5 witness: approving the pending increase request of `c5Pending` with
no supplied quantity credits holder 1 with the requested five units. -/
theorem c5_credit_semantics_witness :
    (approveRequest 3 1 none 9 c5Pending).2.isOk = true ∧
    invQuantity (approveRequest 3 1 none 9 c5Pending).1 1 1
      = invQuantity c5Pending 1 1 + 5 := by
  have h := c5_credit_semantics c5Pending 3 1 none 9 increaseReq5 (by decide)
    (by decide) (by decide)
  exact ⟨h.1, h.2.1⟩

end GiftSystem

namespace GiftSystem

/-! ## C7 (amended): default of the approved quantity -/

/-- C7 (amended): `finalQuantity = approvedQuantity || requestedQuantity`
defaults to the requestedQuantity only when the supplied value is absent or
zero (both falsy); a negative supplied value is truthy and is applied and
recorded as-is.  The chosen value is recorded in the approved request. -/
theorem c7_final_quantity_choice (d : Dataset) (approverId reqId : Nat)
    (aq : Option Int) (now : Nat) (r : Request)
    (hfind : d.giftRequests.find? (fun x => x.id == reqId) = some r)
    (hst : r.status = ReqStatus.pending) :
    (approveRequest approverId reqId aq now d).2
      = Except.ok { r with
          status := ReqStatus.approved
          approverId := some approverId
          approvedQuantity := some (jsOr aq r.requestedQuantity)
          approvedAt := some now } ∧
    (aq = none → jsOr aq r.requestedQuantity = r.requestedQuantity) ∧
    (aq = some 0 → jsOr aq r.requestedQuantity = r.requestedQuantity) ∧
    (∀ q : Int, aq = some q → q ≠ 0 → jsOr aq r.requestedQuantity = q) := by
  have hstb : (r.status != ReqStatus.pending) = false := by simp [hst]
  refine ⟨?_, ?_, ?_, ?_⟩
  · cases hty : r.requestType <;> simp [approveRequest, hfind, hstb, hty]
  · intro h
    simp [jsOr, h]
  · intro h
    simp [jsOr, h]
  · intro q h hq
    simp [jsOr, h, hq]

/-- C7 witness: approving the pending increase request of `c5Pending` with
supplied quantity 2 records 2, and the defaulting facts hold at `some 2`. -/
theorem c7_final_quantity_choice_witness :
    (approveRequest 3 1 (some 2) 9 c5Pending).2
      = Except.ok { increaseReq5 with
          status := ReqStatus.approved
          approverId := some 3
          approvedQuantity := some (jsOr (some 2) increaseReq5.requestedQuantity)
          approvedAt := some 9 } :=
  (c7_final_quantity_choice c5Pending 3 1 (some 2) 9 increaseReq5 (by decide)
    (by decide)).1

/-! ## C6 (amended): submit-time validation of transfers -/

/-- C6 (amended): `submit` never validates the positivity of the requested
quantity; when the type is `transfer` and a truthy target id is supplied,
it requires the target to be an existing active user (the requester
themselves also passes) and the requester's record to exist with quantity
at least the requested one, failing with the unknown-target or
insufficient-stock error respectively and leaving the dataset untouched;
when the checks pass a pending request is appended. -/
theorem c6_submit_transfer_checks (d : Dataset) (uid gid t : Nat) (rq : Int)
    (purpose : String) (now : Nat) (ht : t ≠ 0) :
    (d.users.find? (fun u => u.id == t && u.status == "active") = none →
      submitRequest uid gid ReqType.transfer rq (some t) purpose now d
        = (d, Except.error ApiError.targetUserMissing)) ∧
    (∀ u, d.users.find? (fun u => u.id == t && u.status == "active")
        = some u →
      (d.giftInventory.find? (invMatch (some uid) gid) = none →
        submitRequest uid gid ReqType.transfer rq (some t) purpose now d
          = (d, Except.error ApiError.insufficientToTransfer)) ∧
      (∀ inv, d.giftInventory.find? (invMatch (some uid) gid) = some inv →
        (inv.quantity < rq →
          submitRequest uid gid ReqType.transfer rq (some t) purpose now d
            = (d, Except.error ApiError.insufficientToTransfer)) ∧
        (rq ≤ inv.quantity →
          ∃ r, (submitRequest uid gid ReqType.transfer rq (some t) purpose now d).2
              = Except.ok r ∧
            r.status = ReqStatus.pending ∧ r.targetUserId = some t ∧
            r.requestedQuantity = rq ∧
            (submitRequest uid gid ReqType.transfer rq (some t) purpose now d).1.giftRequests
              = d.giftRequests ++ [r]))) := by
  have htb : truthyNat (some t) = true := by simp [truthyNat, ht]
  refine ⟨?_, ?_⟩
  · intro hu
    simp [submitRequest, htb, hu]
  · intro u hu
    refine ⟨?_, ?_⟩
    · intro hi
      simp [submitRequest, htb, hu, hi]
    · intro inv hi
      refine ⟨?_, ?_⟩
      · intro hlt
        simp [submitRequest, htb, hu, hi, hlt]
      · intro hle
        refine ⟨mkRequest d.nextRequestId uid gid ReqType.transfer rq (some t)
          purpose now, ?_, ?_, ?_, ?_, ?_⟩ <;>
          simp [submitRequest, htb, hu, hi, not_lt.mpr hle, submitCreate,
            mkRequest]

/-- C6 witness: submitting a transfer to the missing user 9 fails with the
unknown-target error and leaves the dataset untouched. -/
theorem c6_submit_transfer_checks_witness :
    submitRequest 1 1 ReqType.transfer 2 (some 9) "p" 3 c6Start
      = (c6Start, Except.error ApiError.targetUserMissing) :=
  (c6_submit_transfer_checks c6Start 1 1 9 2 "p" 3 (by decide)).1 (by decide)

/-! ## C10: submissions that skip validation entirely -/

/-- C10: submitting a transfer with an absent target runs no validation at
all and records a pending request with a null target; submitting an
increase succeeds unconditionally, with no gift-existence or positivity
check on any dataset. -/
theorem c10_submit_without_validation (d : Dataset) (uid gid : Nat) (rq : Int)
    (tgt : Option Nat) (purpose : String) (now : Nat) :
    (∃ r, (submitRequest uid gid ReqType.transfer rq none purpose now d).2
        = Except.ok r ∧
      r.status = ReqStatus.pending ∧ r.targetUserId = none ∧
      r.requesterId = uid ∧ r.giftId = gid ∧ r.requestedQuantity = rq ∧
      (submitRequest uid gid ReqType.transfer rq none purpose now d).1.giftRequests
        = d.giftRequests ++ [r] ∧
      (submitRequest uid gid ReqType.transfer rq none purpose now d).1.giftInventory
        = d.giftInventory ∧
      (submitRequest uid gid ReqType.transfer rq none purpose now d).1.giftTransactions
        = d.giftTransactions) ∧
    (∃ r, (submitRequest uid gid ReqType.increase rq tgt purpose now d).2
        = Except.ok r ∧
      r.status = ReqStatus.pending ∧ r.requesterId = uid ∧
      r.requestedQuantity = rq ∧
      (submitRequest uid gid ReqType.increase rq tgt purpose now d).1.giftRequests
        = d.giftRequests ++ [r]) := by
  constructor
  · refine ⟨mkRequest d.nextRequestId uid gid ReqType.transfer rq none purpose now,
      ?_, ?_, ?_, ?_, ?_, ?_, ?_, ?_, ?_⟩ <;>
      simp [submitRequest, truthyNat, submitCreate, mkRequest]
  · refine ⟨mkRequest d.nextRequestId uid gid ReqType.increase rq tgt purpose now,
      ?_, ?_, ?_, ?_, ?_⟩ <;>
      simp [submitRequest, truthyNat, submitCreate, mkRequest]

end GiftSystem

namespace GiftSystem

/-! ## C2: requests are decided at most once -/

/-- The C2 field invariant: a request's approvedQuantity is non-null exactly
when its status is approved. -/
def ApprovedQtyIff (d : Dataset) : Prop :=
  ∀ r ∈ d.giftRequests,
    r.approvedQuantity.isSome = true ↔ r.status = ReqStatus.approved

/-- The decided version of a request produced by a successful approval. -/
def approvedVersion (r : Request) (approverId : Nat) (finalQuantity : Int)
    (now : Nat) : Request :=
  { r with
      status := ReqStatus.approved
      approverId := some approverId
      approvedQuantity := some finalQuantity
      approvedAt := some now }

/-- The decided version of a request produced by a successful rejection. -/
def rejectedVersion (r : Request) (approverId : Nat) (reason : String)
    (now : Nat) : Request :=
  { r with
      status := ReqStatus.rejected
      approverId := some approverId
      rejectionReason := some reason
      approvedAt := some now }

/-- C2: on a missing request, approve and reject both fail with the shared
404 error and leave the dataset untouched; on a decided request likewise; on
a pending request each succeeds, replacing the first request with the given
id by its approved (with approvedQuantity recorded) or rejected version
(approvedQuantity untouched, no ledger entry); and the invariant
"approvedQuantity is set iff status = approved" is preserved by every
operation of the engine. -/
theorem c2_decide_exactly_once (d : Dataset) (reqId approverId : Nat)
    (aq : Option Int) (reason : String) (now : Nat) :
    (d.giftRequests.find? (fun x => x.id == reqId) = none →
      approveRequest approverId reqId aq now d
        = (d, Except.error ApiError.requestMissingOrProcessed) ∧
      rejectRequest approverId reqId reason now d
        = (d, Except.error ApiError.requestMissingOrProcessed)) ∧
    (∀ r, d.giftRequests.find? (fun x => x.id == reqId) = some r →
      r.status ≠ ReqStatus.pending →
      approveRequest approverId reqId aq now d
        = (d, Except.error ApiError.requestMissingOrProcessed) ∧
      rejectRequest approverId reqId reason now d
        = (d, Except.error ApiError.requestMissingOrProcessed)) ∧
    (∀ r, d.giftRequests.find? (fun x => x.id == reqId) = some r →
      r.status = ReqStatus.pending →
      ((approveRequest approverId reqId aq now d).2
          = Except.ok (approvedVersion r approverId (jsOr aq r.requestedQuantity) now) ∧
        (approveRequest approverId reqId aq now d).1.giftRequests
          = updateFirst (fun x => x.id == reqId)
              (fun _ => approvedVersion r approverId (jsOr aq r.requestedQuantity) now)
              d.giftRequests) ∧
      ((rejectRequest approverId reqId reason now d).2
          = Except.ok (rejectedVersion r approverId reason now) ∧
        (rejectedVersion r approverId reason now).approvedQuantity
          = r.approvedQuantity ∧
        (rejectRequest approverId reqId reason now d).1.giftRequests
          = updateFirst (fun x => x.id == reqId)
              (fun _ => rejectedVersion r approverId reason now) d.giftRequests ∧
        (rejectRequest approverId reqId reason now d).1.giftTransactions
          = d.giftTransactions)) ∧
    (∀ op : Op, ApprovedQtyIff d → ApprovedQtyIff (applyOp op d)) := by
  refine ⟨?_, ?_, ?_, ?_⟩
  · intro h
    exact ⟨by simp [approveRequest, h], by simp [rejectRequest, h]⟩
  · intro r h hne
    have hb : (r.status != ReqStatus.pending) = true := by simp [hne]
    exact ⟨by simp [approveRequest, h, hb], by simp [rejectRequest, h, hb]⟩
  · intro r h hp
    have hstb : (r.status != ReqStatus.pending) = false := by simp [hp]
    refine ⟨⟨?_, ?_⟩, ?_, rfl, ?_, ?_⟩
    · cases hty : r.requestType <;>
        simp [approveRequest, h, hstb, hty, approvedVersion]
    · cases hty : r.requestType <;>
        simp [approveRequest, h, hstb, hty, approvedVersion]
    · simp [rejectRequest, h, hstb, rejectedVersion]
    · simp [rejectRequest, h, hstb, rejectedVersion]
    · simp [rejectRequest, h, hstb]
  · intro op hinv
    cases op with
    | send uid gid q rs nw =>
      have hreq : (applyOp (Op.send uid gid q rs nw) d).giftRequests
          = d.giftRequests := by
        cases hf : d.giftInventory.find? (invMatch (some uid) gid) with
        | none => simp [applyOp, sendGift, hf]
        | some inv => by_cases hq : inv.quantity < q <;>
            simp [applyOp, sendGift, hf, hq]
      intro r hr
      rw [hreq] at hr
      exact hinv r hr
    | adjust a uid gid q rs nw =>
      have hreq : (applyOp (Op.adjust a uid gid q rs nw) d).giftRequests
          = d.giftRequests := by
        simp [applyOp, manualAdjust]
      intro r hr
      rw [hreq] at hr
      exact hinv r hr
    | removeInv a uid gid nw =>
      have hreq : (applyOp (Op.removeInv a uid gid nw) d).giftRequests
          = d.giftRequests := by
        cases hf : d.giftInventory.find? (invMatch (some uid) gid) <;>
          simp [applyOp, removeInventoryRecord, hf]
      intro r hr
      rw [hreq] at hr
      exact hinv r hr
    | submit uid gid rtype rq target purpose nw =>
      have hsplit : (applyOp (Op.submit uid gid rtype rq target purpose nw) d).giftRequests
            = d.giftRequests ∨
          (applyOp (Op.submit uid gid rtype rq target purpose nw) d).giftRequests
            = d.giftRequests ++
                [mkRequest d.nextRequestId uid gid rtype rq target purpose nw] := by
        simp only [applyOp, submitRequest]
        by_cases hg : (rtype == ReqType.transfer && truthyNat target) = true
        · rw [if_pos hg]
          cases hu : d.users.find? (fun u => some u.id == target && u.status == "active") with
          | none => exact Or.inl rfl
          | some u =>
            cases hi : d.giftInventory.find? (invMatch (some uid) gid) with
            | none => exact Or.inl rfl
            | some inv =>
              by_cases hq : inv.quantity < rq
              · left
                simp [hq]
              · right
                simp [hq, submitCreate]
        · rw [if_neg hg]
          exact Or.inr rfl
      intro r hr
      rcases hsplit with hs | hs
      · rw [hs] at hr
        exact hinv r hr
      · rw [hs] at hr
        rcases List.mem_append.mp hr with h | h
        · exact hinv r h
        · have hrq : r = mkRequest d.nextRequestId uid gid rtype rq target purpose nw := by
            simpa using h
          subst hrq
          simp [mkRequest]
    | approve a rid aq' nw =>
      cases hf : d.giftRequests.find? (fun x => x.id == rid) with
      | none =>
        have hreq : (applyOp (Op.approve a rid aq' nw) d).giftRequests
            = d.giftRequests := by
          simp [applyOp, approveRequest, hf]
        intro r hr
        rw [hreq] at hr
        exact hinv r hr
      | some rr =>
        by_cases hp : rr.status = ReqStatus.pending
        · have hstb : (rr.status != ReqStatus.pending) = false := by simp [hp]
          have hreq : (applyOp (Op.approve a rid aq' nw) d).giftRequests
              = updateFirst (fun x => x.id == rid)
                  (fun _ => approvedVersion rr a (jsOr aq' rr.requestedQuantity) nw)
                  d.giftRequests := by
            cases hty : rr.requestType <;>
              simp [applyOp, approveRequest, hf, hstb, hty, approvedVersion]
          intro r hr
          rw [hreq] at hr
          rcases mem_updateFirst hr with hmem | ⟨b, hb, hpb, rfl⟩
          · exact hinv r hmem
          · simp [approvedVersion]
        · have hstb : (rr.status != ReqStatus.pending) = true := by simp [hp]
          have hreq : (applyOp (Op.approve a rid aq' nw) d).giftRequests
              = d.giftRequests := by
            simp [applyOp, approveRequest, hf, hstb]
          intro r hr
          rw [hreq] at hr
          exact hinv r hr
    | reject a rid rs nw =>
      cases hf : d.giftRequests.find? (fun x => x.id == rid) with
      | none =>
        have hreq : (applyOp (Op.reject a rid rs nw) d).giftRequests
            = d.giftRequests := by
          simp [applyOp, rejectRequest, hf]
        intro r hr
        rw [hreq] at hr
        exact hinv r hr
      | some rr =>
        by_cases hp : rr.status = ReqStatus.pending
        · have hstb : (rr.status != ReqStatus.pending) = false := by simp [hp]
          have hreq : (applyOp (Op.reject a rid rs nw) d).giftRequests
              = updateFirst (fun x => x.id == rid)
                  (fun _ => rejectedVersion rr a rs nw) d.giftRequests := by
            simp [applyOp, rejectRequest, hf, hstb, rejectedVersion]
          have hrrnone : rr.approvedQuantity.isSome = false := by
            have hiff := hinv rr (List.mem_of_find?_eq_some hf)
            rw [hp] at hiff
            simpa using hiff
          intro r hr
          rw [hreq] at hr
          rcases mem_updateFirst hr with hmem | ⟨b, hb, hpb, rfl⟩
          · exact hinv r hmem
          · simp [rejectedVersion, hrrnone]
        · have hstb : (rr.status != ReqStatus.pending) = true := by simp [hp]
          have hreq : (applyOp (Op.reject a rid rs nw) d).giftRequests
              = d.giftRequests := by
            simp [applyOp, rejectRequest, hf, hstb]
          intro r hr
          rw [hreq] at hr
          exact hinv r hr
    | deleteUser a uid =>
      have hsub : ∀ x, x ∈ (applyOp (Op.deleteUser a uid) d).giftRequests →
          x ∈ d.giftRequests := by
        intro x hx
        by_cases he : (uid == a) = true
        · simpa [applyOp, GiftSystem.deleteUser, he] using hx
        · cases hu : d.users.find? (fun u => u.id == uid) with
          | none => simpa [applyOp, GiftSystem.deleteUser, he, hu] using hx
          | some u =>
            simp [applyOp, GiftSystem.deleteUser, he, hu, List.mem_filter] at hx
            exact hx.1
      intro r hr
      exact hinv r (hsub r hr)
    | deleteGift gid =>
      have hsub : ∀ x, x ∈ (applyOp (Op.deleteGift gid) d).giftRequests →
          x ∈ d.giftRequests := by
        intro x hx
        cases hg : d.gifts.find? (fun g => g.id == gid) with
        | none => simpa [applyOp, GiftSystem.deleteGift, hg] using hx
        | some g =>
          simp [applyOp, GiftSystem.deleteGift, hg, List.mem_filter] at hx
          exact hx.1
      intro r hr
      exact hinv r (hsub r hr)

/-- The already-approved request used by the C2 witness. -/
def c2ApprovedReq : Request :=
  { increaseReq5 with
      status := ReqStatus.approved
      approvedQuantity := some 5
      approverId := some 3
      approvedAt := some 1 }

/-- A dataset whose only request is already approved. -/
def c2Decided : Dataset :=
  { users := seedUsers
    gifts := [gift1]
    giftInventory := []
    giftRequests := [c2ApprovedReq]
    giftTransactions := []
    nextInventoryId := 1
    nextRequestId := 2
    nextTransactionId := 1 }

/-- C2 witness: re-deciding the already-approved request of `c2Decided`
fails with the shared 404 error and leaves the dataset untouched, for both
approve and reject. -/
theorem c2_decide_exactly_once_witness :
    approveRequest 3 1 none 9 c2Decided
      = (c2Decided, Except.error ApiError.requestMissingOrProcessed) ∧
    rejectRequest 3 1 "no" 9 c2Decided
      = (c2Decided, Except.error ApiError.requestMissingOrProcessed) :=
  (c2_decide_exactly_once c2Decided 1 3 none "no" 9).2.1 c2ApprovedReq
    (by decide) (by decide)

end GiftSystem

namespace GiftSystem

/-! ## C8 (amended): the ledger is append-only except under user deletion -/

/-- C8 (amended): every operation except user deletion preserves every
existing ledger entry unchanged (entries are only ever appended); user
deletion either changes nothing (refused) or removes exactly the deleted
user's entries, appending no cleanup entry; gift deletion leaves the ledger
untouched. -/
theorem c8_ledger_append_only (d : Dataset) :
    (∀ op : Op, op.isDeleteUser = false →
      ∀ t ∈ d.giftTransactions, t ∈ (applyOp op d).giftTransactions) ∧
    (∀ actorId uid,
      (applyOp (Op.deleteUser actorId uid) d).giftTransactions
        = d.giftTransactions ∨
      (applyOp (Op.deleteUser actorId uid) d).giftTransactions
        = d.giftTransactions.filter (fun t => t.userId != some uid)) ∧
    (∀ gid, (applyOp (Op.deleteGift gid) d).giftTransactions
      = d.giftTransactions) := by
  refine ⟨?_, ?_, ?_⟩
  · intro op hop t ht
    cases op with
    | send uid gid q rs nw =>
      cases hf : d.giftInventory.find? (invMatch (some uid) gid) with
      | none => simpa [applyOp, sendGift, hf] using ht
      | some inv =>
        by_cases hq : inv.quantity < q
        · simpa [applyOp, sendGift, hf, hq] using ht
        · have htx : (applyOp (Op.send uid gid q rs nw) d).giftTransactions
              = d.giftTransactions ++ [sendTx d.nextTransactionId uid gid q rs nw] := by
            simp [applyOp, sendGift, hf, hq]
          rw [htx]
          exact List.mem_append_left _ ht
    | adjust a uid gid q rs nw =>
      have htx : (applyOp (Op.adjust a uid gid q rs nw) d).giftTransactions
          = d.giftTransactions ++
            [adjustTx d.nextTransactionId a uid gid (q - invQuantity d uid gid) rs nw] := by
        simp [applyOp, manualAdjust]
      rw [htx]
      exact List.mem_append_left _ ht
    | removeInv a uid gid nw =>
      cases hf : d.giftInventory.find? (invMatch (some uid) gid) with
      | none => simpa [applyOp, removeInventoryRecord, hf] using ht
      | some inv =>
        have htx : (applyOp (Op.removeInv a uid gid nw) d).giftTransactions
            = d.giftTransactions ++
              [cleanupTx d.nextTransactionId a uid gid inv.quantity nw] := by
          simp [applyOp, removeInventoryRecord, hf]
        rw [htx]
        exact List.mem_append_left _ ht
    | submit uid gid rtype rq target purpose nw =>
      have htx : (applyOp (Op.submit uid gid rtype rq target purpose nw) d).giftTransactions
          = d.giftTransactions := by
        simp only [applyOp, submitRequest]
        by_cases hg : (rtype == ReqType.transfer && truthyNat target) = true
        · rw [if_pos hg]
          cases hu : d.users.find? (fun u => some u.id == target && u.status == "active") with
          | none => rfl
          | some u =>
            cases hi : d.giftInventory.find? (invMatch (some uid) gid) with
            | none => rfl
            | some inv =>
              by_cases hq : inv.quantity < rq
              · simp [hq]
              · simp [hq, submitCreate]
        · rw [if_neg hg]
          simp [submitCreate]
      rw [htx]
      exact ht
    | approve a rid aq nw =>
      cases hf : d.giftRequests.find? (fun x => x.id == rid) with
      | none => simpa [applyOp, approveRequest, hf] using ht
      | some rr =>
        by_cases hp : rr.status = ReqStatus.pending
        · have hstb : (rr.status != ReqStatus.pending) = false := by simp [hp]
          cases hty : rr.requestType with
          | increase =>
            have htx : (applyOp (Op.approve a rid aq nw) d).giftTransactions
                = d.giftTransactions ++
                  [increaseTx d.nextTransactionId rr (jsOr aq rr.requestedQuantity) a nw] := by
              simp [applyOp, approveRequest, hf, hstb, hty]
            rw [htx]
            exact List.mem_append_left _ ht
          | transfer =>
            have htx : (applyOp (Op.approve a rid aq nw) d).giftTransactions
                = d.giftTransactions ++
                  [transferOutTx d.nextTransactionId rr (jsOr aq rr.requestedQuantity) a nw,
                   transferInTx (d.nextTransactionId + 1) rr (jsOr aq rr.requestedQuantity) a nw] := by
              simp [applyOp, approveRequest, hf, hstb, hty]
            rw [htx]
            exact List.mem_append_left _ ht
          | other =>
            simpa [applyOp, approveRequest, hf, hstb, hty] using ht
        · have hstb : (rr.status != ReqStatus.pending) = true := by simp [hp]
          simpa [applyOp, approveRequest, hf, hstb] using ht
    | reject a rid rs nw =>
      cases hf : d.giftRequests.find? (fun x => x.id == rid) with
      | none => simpa [applyOp, rejectRequest, hf] using ht
      | some rr =>
        by_cases hp : rr.status = ReqStatus.pending
        · have hstb : (rr.status != ReqStatus.pending) = false := by simp [hp]
          simpa [applyOp, rejectRequest, hf, hstb] using ht
        · have hstb : (rr.status != ReqStatus.pending) = true := by simp [hp]
          simpa [applyOp, rejectRequest, hf, hstb] using ht
    | deleteUser a uid =>
      simp [Op.isDeleteUser] at hop
    | deleteGift gid =>
      cases hg : d.gifts.find? (fun x => x.id == gid) with
      | none => simpa [applyOp, GiftSystem.deleteGift, hg] using ht
      | some g => simpa [applyOp, GiftSystem.deleteGift, hg] using ht
  · intro a uid
    by_cases he : (uid == a) = true
    · exact Or.inl (by simp [applyOp, GiftSystem.deleteUser, he])
    · cases hu : d.users.find? (fun u => u.id == uid) with
      | none => exact Or.inl (by simp [applyOp, GiftSystem.deleteUser, he, hu])
      | some u => exact Or.inr (by simp [applyOp, GiftSystem.deleteUser, he, hu])
  · intro gid
    cases hg : d.gifts.find? (fun x => x.id == gid) with
    | none => simp [applyOp, GiftSystem.deleteGift, hg]
    | some g => simp [applyOp, GiftSystem.deleteGift, hg]

/-- C8 witness: the ledger entry of `c8Start` survives a manual adjustment
(a non-delete-user operation). -/
theorem c8_ledger_append_only_witness :
    c8Entry ∈ (applyOp (Op.adjust 3 1 1 4 "w" 5) c8Start).giftTransactions :=
  (c8_ledger_append_only c8Start).1 (Op.adjust 3 1 1 4 "w" 5) rfl c8Entry
    (by decide)

end GiftSystem

namespace GiftSystem

/-! ## C9: gift deletion cascades -/

/-- In a list with pairwise-distinct keys, searching for the key of a member
returns exactly that member. -/
theorem find?_key_of_mem_nodup {α : Type _} {key : α → Nat} {l : List α} {a : α}
    (ha : a ∈ l) (hnd : (l.map key).Nodup) :
    l.find? (fun x => key x == key a) = some a := by
  induction l with
  | nil => cases ha
  | cons x xs ih =>
    rw [List.map_cons] at hnd
    rcases List.mem_cons.mp ha with rfl | hmem
    · exact List.find?_cons_of_pos _ (by simp)
    · have hx : ¬ (key x == key a) = true := by
        simp only [beq_iff_eq]
        intro he
        exact (List.nodup_cons.mp hnd).1
          (by rw [he]; exact List.mem_map_of_mem key hmem)
      rw [List.find?_cons_of_neg (p := fun x => key x == key a) xs hx]
      exact ih hmem (List.nodup_cons.mp hnd).2

/-- The count reported by a cascade (initial length minus surviving length)
is the number of removed elements. -/
theorem length_sub_filter_ne {α : Type _} (key : α → Nat) (k : Nat)
    (l : List α) :
    l.length - (l.filter (fun x => key x != k)).length
      = (l.filter (fun x => key x == k)).length := by
  induction l with
  | nil => rfl
  | cons x xs ih =>
    have hle := List.length_filter_le (fun x => key x != k) xs
    by_cases hx : (key x == k) = true
    · have hx' : (key x != k) = false := by simp [bne, hx]
      simp only [List.filter_cons, hx, hx', List.length_cons, if_pos, if_neg,
        Bool.false_eq_true, if_false, if_true]
      omega
    · have hx' : (key x != k) = true := by simp [bne, hx]
      simp only [List.filter_cons, hx, hx', List.length_cons,
        Bool.false_eq_true, if_false, if_true]
      omega

/-- C9: deleting a gift present in a dataset whose gift ids are pairwise
distinct removes the gift itself, every inventory record and every request
referencing it (whatever its status), keeps all records referencing other
gifts, leaves the ledger untouched, and reports exactly the number of
removed inventory records and requests. -/
theorem c9_delete_gift_cascade (d : Dataset) (g : Gift) (hg : g ∈ d.gifts)
    (hnd : (d.gifts.map Gift.id).Nodup) :
    (deleteGift g.id d).2 = Except.ok
      { deletedGift := g
        removedInventoryCount :=
          (d.giftInventory.filter (fun inv => inv.giftId == g.id)).length
        removedRequestsCount :=
          (d.giftRequests.filter (fun r => r.giftId == g.id)).length } ∧
    (deleteGift g.id d).1.giftInventory
      = d.giftInventory.filter (fun inv => inv.giftId != g.id) ∧
    (deleteGift g.id d).1.giftRequests
      = d.giftRequests.filter (fun r => r.giftId != g.id) ∧
    g ∉ (deleteGift g.id d).1.gifts ∧
    (∀ g', g' ∈ d.gifts → g'.id ≠ g.id → g' ∈ (deleteGift g.id d).1.gifts) ∧
    (deleteGift g.id d).1.giftTransactions = d.giftTransactions := by
  have hfind : d.gifts.find? (fun x => x.id == g.id) = some g :=
    find?_key_of_mem_nodup hg hnd
  have hgifts : (deleteGift g.id d).1.gifts
      = d.gifts.eraseP (fun x => x.id == g.id) := by
    simp [deleteGift, hfind]
  obtain ⟨a, l₁, l₂, hl₁, hpa, hdecomp, herase⟩ :=
    List.exists_of_eraseP hg (p := fun x => x.id == g.id) (by simp)
  have haid : a.id = g.id := by simpa using hpa
  have hndsplit : ((l₁ ++ a :: l₂).map Gift.id).Nodup := by
    rw [← hdecomp]
    exact hnd
  have hanotin : a.id ∉ l₂.map Gift.id := by
    rw [List.map_append, List.map_cons] at hndsplit
    exact (List.nodup_cons.mp hndsplit.of_append_right).1
  refine ⟨?_, ?_, ?_, ?_, ?_, ?_⟩
  · simp only [deleteGift, hfind]
    rw [length_sub_filter_ne InventoryRecord.giftId g.id d.giftInventory,
      length_sub_filter_ne Request.giftId g.id d.giftRequests]
  · simp [deleteGift, hfind]
  · simp [deleteGift, hfind]
  · rw [hgifts, herase]
    intro hmem
    rcases List.mem_append.mp hmem with h | h
    · exact hl₁ g h (by simp)
    · exact hanotin (by rw [haid]; exact List.mem_map_of_mem Gift.id h)
  · intro g' hmem hne
    rw [hgifts, herase]
    rw [hdecomp] at hmem
    rcases List.mem_append.mp hmem with h | h
    · exact List.mem_append_left _ h
    · rcases List.mem_cons.mp h with rfl | h
      · exact absurd haid hne
      · exact List.mem_append_right _ h
  · simp [deleteGift, hfind]

/-- Dataset for the C9 witness, mirroring the spec scenario: gift 1 has
three inventory records and one pending request; gift 2 has one record. -/
def c9Start : Dataset :=
  { users := seedUsers
    gifts := [gift1, { id := 2, giftCode := "G002", status := "active" }]
    giftInventory :=
      [{ id := 1, userId := some 1, giftId := 1, quantity := 5, lastUpdated := 0 },
       { id := 2, userId := some 2, giftId := 1, quantity := 3, lastUpdated := 0 },
       { id := 3, userId := some 3, giftId := 1, quantity := 2, lastUpdated := 0 },
       { id := 4, userId := some 1, giftId := 2, quantity := 7, lastUpdated := 0 }]
    giftRequests := [increaseReq5]
    giftTransactions := []
    nextInventoryId := 5
    nextRequestId := 2
    nextTransactionId := 1 }

/-- C9 witness: deleting gift 1 of `c9Start` reports three removed
inventory records and one removed request. -/
theorem c9_delete_gift_cascade_witness :
    (deleteGift 1 c9Start).2 = Except.ok
      { deletedGift := gift1
        removedInventoryCount := 3
        removedRequestsCount := 1 } := by
  have h := (c9_delete_gift_cascade c9Start gift1 (by decide) (by decide)).1
  exact h

end GiftSystem

namespace GiftSystem

/-- C4 witness: holder 1 sends two of their five units — the send succeeds
and the quantity drops by exactly two. -/
theorem c4_send_debit_semantics_witness :
    (sendGift 1 1 2 "" 3 c4Stock).2 = Except.ok () ∧
    invQuantity (sendGift 1 1 2 "" 3 c4Stock).1 1 1
      = invQuantity c4Stock 1 1 - 2 := by
  have h := (c4_send_debit_semantics c4Stock 1 1 2 "" 3 (by decide)).2 (by decide)
  exact ⟨h.1, h.2.1⟩

end GiftSystem
